import Mathlib

/-!
# Verification of the Career-Advisor chat application (src/app.py)

A shallow embedding of the single-file Streamlit application. Pure helper
functions (`build_input_parts`, the image-processing comprehension, the
credential retrieval) are translated directly; the stateful chat-input
handler is modelled as an explicit step function on a session-state record,
with the outcome of the external completion call supplied as an oracle.
-/

namespace CareerAdvisor

/-- The whitespace characters stripped by the Python method `str.strip()`
(restricted to the ASCII range, which covers all inputs considered here). -/
def isPySpace (c : Char) : Bool :=
  c == ' ' || c == '\t' || c == '\n' || c == '\x0d' || c == '\x0b' || c == '\x0c'

/-- Python `text.strip()`: drop leading and trailing whitespace. -/
def pyStrip (s : String) : String :=
  String.mk (((s.data.dropWhile isPySpace).reverse.dropWhile isPySpace).reverse)

/-- Python truthiness of a string: non-empty. -/
def pyTruthyStr (s : String) : Bool := !(s == "")

/-- How Python renders an optional string inside an f-string:
`None` prints as the four characters `None`. -/
def pyOptStr : Option String → String
  | none => "None"
  | some s => s

/-- Split a character list at every slash, keeping empty components,
mirroring Python `s.split('/')`. -/
def splitOnSlash : List Char → List (List Char)
  | [] => [[]]
  | c :: rest =>
      if c == '/' then [] :: splitOnSlash rest
      else
        match splitOnSlash rest with
        | [] => [[c]]
        | h :: t => (c :: h) :: t

/-- Python `s.split('/')[-1]`: the last slash-separated component. -/
def pySplitLast (s : String) : String :=
  String.mk (((splitOnSlash s.data).getLast?).getD s.data)

/-- The base64 alphabet used by `base64.b64encode`. -/
def b64alphabet : List Char :=
  "ABCDEFGHIJKLMNOPQRSTUVWXYZabcdefghijklmnopqrstuvwxyz0123456789+/".data

/-- The base64 digit for a 6-bit value. -/
def b64char (n : Nat) : Char := b64alphabet.getD n 'A'

/-- Standard base64 encoding of a byte list, three bytes per group,
with `=` padding; each input is a byte (values reduced mod 256). -/
def b64groups : List Nat → List Char
  | [] => []
  | [a] => [b64char (a / 4 % 64), b64char (a % 4 * 16), '=', '=']
  | [a, b] => [b64char (a / 4 % 64), b64char (a % 4 * 16 + b / 16 % 16),
               b64char (b % 16 * 4), '=']
  | a :: b :: c :: rest =>
      b64char (a / 4 % 64) :: b64char (a % 4 * 16 + b / 16 % 16) ::
      b64char (b % 16 * 4 + c / 64 % 4) :: b64char (c % 64) :: b64groups rest

/-- Python `base64.b64encode(bytes).decode('utf-8')`. -/
def base64encode (bs : List Nat) : String :=
  String.mk (b64groups (bs.map (· % 256)))

/-- An uploaded file as provided by the upload widget: a declared content
type (absent when the widget supplies none) and the raw bytes `read()`
returns, one `Nat` per byte. -/
structure UploadedFile where
  ftype : Option String
  bytes : List Nat
deriving DecidableEq

/-- One element of the `images` list the handler builds per uploaded file
(src/app.py lines 224-230): a mime type and a data URL. -/
structure Image where
  mime_type : String
  data_url : String
deriving DecidableEq

/-- The image-processing comprehension (src/app.py lines 224-230):
`mime_type` falls back to `image/png` when the declared type is falsy,
while `data_url` interpolates the raw declared type directly. -/
def mkImage (f : UploadedFile) : Image :=
  { mime_type :=
      match f.ftype with
      | some t => if t == "" then "image/png" else "image/" ++ pySplitLast t
      | none => "image/png"
    data_url := "data:" ++ pyOptStr f.ftype ++ ";base64," ++ base64encode f.bytes }

/-- One typed content part of a request, as built by `build_input_parts`. -/
inductive InputPart where
  | text (value : String)
  | image (image_url : String)
deriving DecidableEq

/-- The single user message wrapping the content parts
(the dict literal on src/app.py line 152). -/
structure UserMessage where
  mtype : String
  role : String
  content : List InputPart
deriving DecidableEq

/-- The content list accumulated inside `build_input_parts`
(src/app.py lines 137-151): a text part carrying the stripped text when
`text and text.strip()` is truthy, then one image part per image. -/
def inputContent (text : String) (images : List Image) : List InputPart :=
  (if pyTruthyStr text && pyTruthyStr (pyStrip text)
     then [InputPart.text (pyStrip text)] else [])
    ++ images.map (fun i => InputPart.image i.data_url)

/-- `build_input_parts` (src/app.py lines 126-152): wrap the content in one
user message, or return the empty list when there is no content. -/
def build_input_parts (text : String) (images : List Image) : List UserMessage :=
  let content := inputContent text images
  if content.isEmpty then []
  else [{ mtype := "message", role := "user", content := content }]

/-- The fixed system instruction string `SYSTEM_PROMPT` (src/app.py lines 83-99). -/
def SYSTEM_PROMPT : String :=
  "\nYou are an expert AI Career Software Advisor specializing in helping software developers advance their careers. \nYou have access to a comprehensive knowledge base through RAG technology and should provide:\n\n- Personalized career guidance for software developers\n- Technical skill recommendations and learning paths\n- Industry insights and market trends\n- Code review and best practices advice\n- Interview preparation and tips\n- Resume and portfolio optimization suggestions\n- Salary negotiation strategies\n- Technology stack recommendations\n\nAlways provide actionable, specific advice tailored to the user's experience level and career goals. \nUse the retrieved documents to support your recommendations with current industry data and best practices.\nBe encouraging, professional, and focus on practical steps the user can take to advance their career.\n"

/-- The outbound request assembled by `call_responses_api`
(src/app.py lines 156-182); the network transport itself is external. -/
structure Request where
  model : String
  input : List UserMessage
  vector_store_ids : List String
  instructions : String
  previous_response_id : Option String
deriving DecidableEq

/-- `call_responses_api` (src/app.py lines 156-182), up to the point where
the request leaves the process: the request record it sends. -/
def call_responses_api (vsId : String) (parts : List UserMessage)
    (previous_response_id : Option String) : Request :=
  { model := "gpt-5-nano"
    input := parts
    vector_store_ids := [vsId]
    instructions := SYSTEM_PROMPT
    previous_response_id := previous_response_id }

/-- Oracle for the external completion call: either a structured response
(its `output_text` and its optional `id`) or a raised exception message. -/
inductive CallOutcome where
  | success (output_text : String) (id : Option String)
  | failure (message : String)
deriving DecidableEq

/-- One entry of `st.session_state.messages`: a user turn stores the raw
text plus display image URLs, an assistant turn stores the response text. -/
inductive Message where
  | user (text : String) (images : List String)
  | assistant (content : String)
deriving DecidableEq

/-- The per-session mutable state (src/app.py lines 101-110 and 193-195). -/
structure SessionState where
  messages : List Message
  previous_response_id : Option String
  uploader_key : Nat
deriving DecidableEq

/-- The session state right after initialization. -/
def initialState : SessionState :=
  { messages := [], previous_response_id := none, uploader_key := 0 }

/-- Observable side effects of one run of the handler: the requests issued
to the completion endpoint and the error strings passed to `st.error`. -/
structure Effects where
  requests : List Request
  errors : List String
deriving DecidableEq

/-- `st.session_state.previous_response_id = response.id if response.id else None`
(src/app.py lines 264-266): a falsy identifier (absent or empty) stores `None`. -/
def pyTruthyId : Option String → Option String
  | some i => if i == "" then none else some i
  | none => none

/-- The chat-input handler (src/app.py lines 222-277) for one submitted
string: build the images and parts, append the user message, issue the
call, and on success append the assistant message, store the response id
and bump the uploader key; on an exception show one error message. -/
def processSubmit (vsId : String) (s : SessionState) (text : String)
    (uploaded : List UploadedFile) (outcome : CallOutcome) :
    SessionState × Effects :=
  let images := uploaded.map mkImage
  let parts := build_input_parts text images
  let image_urls := images.map Image.data_url
  let s1 : SessionState :=
    { s with messages := s.messages ++ [Message.user text image_urls] }
  let req := call_responses_api vsId parts s.previous_response_id
  match outcome with
  | CallOutcome.success otext oid =>
      ({ messages := s1.messages ++ [Message.assistant otext]
         previous_response_id := pyTruthyId oid
         uploader_key := s1.uploader_key + 1 },
       { requests := [req], errors := [] })
  | CallOutcome.failure m =>
      (s1, { requests := [req], errors := ["An error occurred: " ++ m] })

/-- The Clear Conversation History button (src/app.py lines 118-122):
empty the message list and drop the stored response id. -/
def clearHistory (s : SessionState) : SessionState :=
  { s with messages := [], previous_response_id := none }

/-- A session event: a chat submission (with the call outcome oracle) or a
press of the clear-history button. -/
inductive Event where
  | submit (text : String) (uploaded : List UploadedFile) (outcome : CallOutcome)
  | reset
deriving DecidableEq

/-- One step of the session: dispatch an event to the handler or the button. -/
def step (vsId : String) (s : SessionState) : Event → SessionState × Effects
  | Event.submit t u o => processSubmit vsId s t u o
  | Event.reset => (clearHistory s, { requests := [], errors := [] })

/-- Run a list of events from a state, keeping only the final state. -/
def runEvents (vsId : String) (s : SessionState) : List Event → SessionState
  | [] => s
  | e :: es => runEvents vsId (step vsId s e).1 es

/-- One user submission together with the oracle outcome of its call. -/
structure Submission where
  text : String
  uploaded : List UploadedFile
  outcome : CallOutcome
deriving DecidableEq

/-- Whether the submission's completion call succeeded. -/
def Submission.isSuccess : Submission → Bool
  | { outcome := CallOutcome.success _ _, .. } => true
  | _ => false

/-- Run a list of submissions through the handler. -/
def runSubs (vsId : String) (s : SessionState) : List Submission → SessionState
  | [] => s
  | sub :: rest =>
      runSubs vsId (processSubmit vsId s sub.text sub.uploaded sub.outcome).1 rest

/-- Number of submissions whose call succeeded. -/
def countSucc (subs : List Submission) : Nat :=
  (subs.filter Submission.isSuccess).length

/-- Number of submissions whose call raised. -/
def countFail (subs : List Submission) : Nat :=
  (subs.filter (fun sub => ! sub.isSuccess)).length

/-- Lookup in `st.secrets`: a missing key raises `KeyError`
(src/app.py lines 59-60 fall back to this lookup). -/
def st_secrets_get : Option String → Except String String
  | some v => Except.ok v
  | none => Except.error "KeyError"

/-- `os.getenv(k) or st.secrets[k]` (src/app.py lines 59-60): a truthy
environment value wins, otherwise the secrets lookup runs (and may raise). -/
def getCred (env secretsVal : Option String) : Except String String :=
  match env with
  | some v => if v == "" then st_secrets_get secretsVal else Except.ok v
  | none => st_secrets_get secretsVal

/-- The error banner shown when the API key resolves falsy (src/app.py lines 70-74). -/
def keyWarning : String :=
  "⚠️ OpenAI API Key is not set! Please add your OPENAI_API_KEY to the .env file or Streamlit secrets."

/-- The error banner shown when the vector store id resolves falsy (src/app.py lines 76-80). -/
def vsWarning : String :=
  "⚠️ Vector Store ID is not set! Please add your VECTOR_STORE_ID to the .env file or Streamlit secrets."

/-- Result of module start-up when both credential lookups return:
the resolved values, the banners shown, and whether the script stopped
(`st.stop()` is commented out, so it never does). -/
structure StartupResult where
  apiKey : String
  vectorStoreId : String
  warnings : List String
  halted : Bool
deriving DecidableEq

/-- Start-up (src/app.py lines 58-80): resolve both configuration values
(a lookup that raises aborts the script run), then show one banner per
falsy value and continue. -/
def startup (envKey secKey envVS secVS : Option String) :
    Except String StartupResult :=
  match getCred envKey secKey with
  | Except.error e => Except.error e
  | Except.ok k =>
      match getCred envVS secVS with
      | Except.error e => Except.error e
      | Except.ok v =>
          Except.ok
            { apiKey := k
              vectorStoreId := v
              warnings := (if k == "" then [keyWarning] else [])
                ++ (if v == "" then [vsWarning] else [])
              halted := false }

/-! ## General lemmas about the embedded operations -/

/-- The guard `text and text.strip()` is equivalent to the strip alone being
truthy, because stripping the empty string yields the empty string. -/
theorem guard_eq (text : String) :
    (pyTruthyStr text && pyTruthyStr (pyStrip text)) = pyTruthyStr (pyStrip text) := by
  by_cases h : text = ""
  · subst h; decide
  · simp [pyTruthyStr, h]

/-- The handler issues exactly one request per submission, carrying the
assembled parts and the stored response id, whatever the call outcome. -/
theorem processSubmit_requests (vsId : String) (s : SessionState) (t : String)
    (u : List UploadedFile) (o : CallOutcome) :
    (processSubmit vsId s t u o).2.requests
      = [call_responses_api vsId (build_input_parts t (u.map mkImage))
          s.previous_response_id] := by
  cases o <;> rfl

/-- The message list after one submission: the user turn is appended, then
an assistant turn exactly when the call succeeded. -/
theorem processSubmit_messages (vsId : String) (s : SessionState) (t : String)
    (u : List UploadedFile) (o : CallOutcome) :
    (processSubmit vsId s t u o).1.messages
      = s.messages ++ Message.user t ((u.map mkImage).map Image.data_url)
          :: (match o with
              | CallOutcome.success ot _ => [Message.assistant ot]
              | CallOutcome.failure _ => []) := by
  cases o <;> simp [processSubmit]

/-- A run made only of resets leaves the stored response id unchanged when
empty and clears it otherwise. -/
theorem runEvents_resets (vsId : String) (between : List Event) :
    ∀ s : SessionState, (∀ e ∈ between, e = Event.reset) →
    (runEvents vsId s between).previous_response_id
      = if between.isEmpty then s.previous_response_id else none := by
  induction between with
  | nil => intro s _; rfl
  | cons e rest ih =>
      intro s hb
      have he : e = Event.reset := hb e (List.mem_cons_self e rest)
      subst he
      have hrest := ih (clearHistory s) (fun e hme => hb e (List.mem_cons_of_mem _ hme))
      simp only [runEvents, step]
      rw [hrest]
      cases h : rest.isEmpty <;> simp [clearHistory]

/-- Successful and failed calls partition the submissions. -/
theorem count_partition (subs : List Submission) :
    countSucc subs + countFail subs = subs.length := by
  induction subs with
  | nil => rfl
  | cons sub rest ih =>
      cases h : sub.isSuccess <;>
        simp [countSucc, countFail, List.filter_cons, h] at ih ⊢ <;> omega

/-- Success counts add over list append. -/
theorem countSucc_append (l1 l2 : List Submission) :
    countSucc (l1 ++ l2) = countSucc l1 + countSucc l2 := by
  simp [countSucc, List.filter_append]

/-- Failure counts add over list append. -/
theorem countFail_append (l1 l2 : List Submission) :
    countFail (l1 ++ l2) = countFail l1 + countFail l2 := by
  simp [countFail, List.filter_append]

/-- Message-count bookkeeping for a run of submissions: each successful
call adds two messages, each failed call adds one. -/
theorem runSubs_length (vsId : String) :
    ∀ (subs : List Submission) (s : SessionState),
    (runSubs vsId s subs).messages.length
      = s.messages.length + (2 * countSucc subs + countFail subs) := by
  intro subs
  induction subs with
  | nil => intro s; simp [runSubs, countSucc, countFail]
  | cons sub rest ih =>
      intro s
      obtain ⟨t, u, o⟩ := sub
      cases o with
      | success ot oid =>
          rw [runSubs, ih]
          simp [processSubmit, countSucc, countFail, List.filter_cons,
            Submission.isSuccess]
          omega
      | failure m =>
          rw [runSubs, ih]
          simp [processSubmit, countSucc, countFail, List.filter_cons,
            Submission.isSuccess]
          omega

/-! ## Claim theorems -/

/-- Claim C1, counterexample: for the whitespace-only submission `" "` with
no images, `build_input_parts` does return the empty part list, but the
handler still issues a request to the completion endpoint and still appends
the user turn to the history, so the submission is not silently ignored. -/
theorem C1_counterexample :
    build_input_parts " " [] = []
    ∧ (processSubmit "vs" initialState " " [] (CallOutcome.failure "e")).2.requests ≠ []
    ∧ (processSubmit "vs" initialState " " [] (CallOutcome.failure "e")).1.messages ≠ [] := by
  refine ⟨by decide, by decide, by decide⟩

/-- Claim C1, amended: for every submission whose text is empty or
whitespace-only and whose image list is empty, the assembler produces an
empty part list, but the handler still appends the user turn and issues one
request carrying the empty input list. -/
theorem C1_empty_input (vsId : String) (s : SessionState) (text : String)
    (outcome : CallOutcome) (h : pyStrip text = "") :
    build_input_parts text [] = []
    ∧ (processSubmit vsId s text [] outcome).2.requests
        = [call_responses_api vsId [] s.previous_response_id]
    ∧ (processSubmit vsId s text [] outcome).1.messages
        = s.messages ++ Message.user text []
            :: (match outcome with
                | CallOutcome.success ot _ => [Message.assistant ot]
                | CallOutcome.failure _ => []) := by
  have hempty : build_input_parts text [] = [] := by
    simp [build_input_parts, inputContent, guard_eq, pyTruthyStr, h]
  refine ⟨hempty, ?_, ?_⟩
  · have hreq := processSubmit_requests vsId s text [] outcome
    simpa [hempty] using hreq
  · have hmsg := processSubmit_messages vsId s text [] outcome
    simpa using hmsg

/-- Claim C1 witness: a concrete whitespace-only, image-free submission. -/
theorem C1_empty_input_witness :
    build_input_parts "  " [] = []
    ∧ (processSubmit "vs" initialState "  " [] (CallOutcome.success "ok" (some "r1"))).2.requests
        = [call_responses_api "vs" [] none]
    ∧ (processSubmit "vs" initialState "  " [] (CallOutcome.success "ok" (some "r1"))).1.messages
        = [Message.user "  " [], Message.assistant "ok"] := by
  have h := C1_empty_input "vs" initialState "  "
    (CallOutcome.success "ok" (some "r1")) (by decide)
  exact ⟨h.1, h.2.1, h.2.2⟩

/-- Claim C2: the assembled content is the trimmed-text part (present
exactly when the text is non-empty after trimming) followed by one image
part per uploaded image, in upload order. -/
theorem C2_part_assembly (text : String) (uploaded : List UploadedFile) :
    inputContent text (uploaded.map mkImage)
      = (if pyStrip text = "" then [] else [InputPart.text (pyStrip text)])
        ++ uploaded.map (fun f => InputPart.image (mkImage f).data_url)
    ∧ (uploaded.map (fun f => InputPart.image (mkImage f).data_url)).length
        = uploaded.length := by
  constructor
  · by_cases hs : pyStrip text = ""
    · simp [inputContent, guard_eq, pyTruthyStr, hs, List.map_map, Function.comp_def]
    · have ht : ¬ text = "" := fun he => hs (by subst he; rfl)
      simp [inputContent, guard_eq, pyTruthyStr, hs, ht, List.map_map,
        Function.comp_def]
  · simp

/-- Claim C3, evaluation at the failing input: for an uploaded file with no
declared content type, the `mime_type` field defaults to `image/png` but the
data URL actually emitted interpolates the raw declared type, producing
`data:None;base64,...`; a declared `image/jpeg` type is passed through. -/
theorem C3_data_url_eval :
    mkImage { ftype := none, bytes := [120] }
      = { mime_type := "image/png", data_url := "data:None;base64,eA==" }
    ∧ mkImage { ftype := some "image/jpeg", bytes := [120] }
      = { mime_type := "image/jpeg", data_url := "data:image/jpeg;base64,eA==" } := by
  exact ⟨by decide, by decide⟩

/-- Claim C4: when the completion call raises, the handler shows exactly one
error message, the history gains the user turn but no assistant turn, and
the stored response id is unchanged. -/
theorem C4_failure_abandons_turn (vsId : String) (s : SessionState)
    (text : String) (uploaded : List UploadedFile) (emsg : String) :
    (processSubmit vsId s text uploaded (CallOutcome.failure emsg)).1.messages
      = s.messages ++ [Message.user text ((uploaded.map mkImage).map Image.data_url)]
    ∧ (processSubmit vsId s text uploaded (CallOutcome.failure emsg)).1.previous_response_id
      = s.previous_response_id
    ∧ (processSubmit vsId s text uploaded (CallOutcome.failure emsg)).2.errors
      = ["An error occurred: " ++ emsg] :=
  ⟨rfl, rfl, rfl⟩

/-- Claim C5: the continuation token resulting from successful call k (the
response id, absent when falsy) is exactly the `previous_response_id` sent
on the next call, unless resets intervened, in which case the next call
sends no token. -/
theorem C5_token_roundtrip (vsId : String) (s : SessionState) (t : String)
    (u : List UploadedFile) (otext : String) (oid : Option String)
    (between : List Event) (t2 : String) (u2 : List UploadedFile)
    (o2 : CallOutcome) (hb : ∀ e ∈ between, e = Event.reset) :
    (step vsId
        (runEvents vsId
          (step vsId s (Event.submit t u (CallOutcome.success otext oid))).1 between)
        (Event.submit t2 u2 o2)).2.requests.map Request.previous_response_id
      = [if between.isEmpty then pyTruthyId oid else none] := by
  have hstep : (step vsId s (Event.submit t u
      (CallOutcome.success otext oid))).1.previous_response_id = pyTruthyId oid := rfl
  have hrun := runEvents_resets vsId between
    (step vsId s (Event.submit t u (CallOutcome.success otext oid))).1 hb
  have hreq : ∀ s' : SessionState,
      (step vsId s' (Event.submit t2 u2 o2)).2.requests.map Request.previous_response_id
        = [s'.previous_response_id] := by
    intro s'; cases o2 <;> rfl
  rw [hreq, hrun, hstep]

/-- Claim C5 witness: a successful call returning id `r1`, one intervening
reset, then a second call, which sends no token. -/
theorem C5_token_roundtrip_witness :
    (step "vs"
        (runEvents "vs"
          (step "vs" initialState
            (Event.submit "a" [] (CallOutcome.success "out" (some "r1")))).1
          [Event.reset])
        (Event.submit "b" [] (CallOutcome.failure "x"))).2.requests.map
        Request.previous_response_id
      = [if ([Event.reset] : List Event).isEmpty then pyTruthyId (some "r1") else none] :=
  C5_token_roundtrip "vs" initialState "a" [] "out" (some "r1") [Event.reset]
    "b" [] (CallOutcome.failure "x") (by decide)

/-- Claim C6: clearing the conversation empties the history and drops the
token in the same step, and doing it again changes nothing. -/
theorem C6_reset_idempotent (s : SessionState) :
    (clearHistory s).messages = []
    ∧ (clearHistory s).previous_response_id = none
    ∧ clearHistory (clearHistory s) = clearHistory s :=
  ⟨rfl, rfl, rfl⟩

/-- Claim C7: the history length is twice the number of successful calls
plus the number of failed calls; in particular N all-successful turns give
length 2N, and k successful turns followed by one failure give 2k+1. -/
theorem C7_history_length (vsId : String) :
    (∀ subs : List Submission,
        (runSubs vsId initialState subs).messages.length
          = 2 * countSucc subs + countFail subs)
    ∧ (∀ subs : List Submission, countFail subs = 0 →
        (runSubs vsId initialState subs).messages.length = 2 * subs.length)
    ∧ (∀ (pre : List Submission) (f : Submission),
        countFail pre = 0 → f.isSuccess = false →
        (runSubs vsId initialState (pre ++ [f])).messages.length
          = 2 * pre.length + 1) := by
  have hlen := runSubs_length vsId
  have h0 : initialState.messages.length = 0 := rfl
  refine ⟨?_, ?_, ?_⟩
  · intro subs
    have := hlen subs initialState
    omega
  · intro subs hf
    have hp := count_partition subs
    have := hlen subs initialState
    omega
  · intro pre f hpre hf
    have hp := count_partition pre
    have hs := countSucc_append pre [f]
    have hfa := countFail_append pre [f]
    have hone : countSucc [f] = 0 ∧ countFail [f] = 1 := by
      constructor <;> simp [countSucc, countFail, List.filter_cons, hf]
    have := hlen (pre ++ [f]) initialState
    have hpl : (pre ++ [f]).length = pre.length + 1 := by simp
    omega

/-- A sample submission whose call succeeds with response id `r1`. -/
def subOk : Submission :=
  { text := "hello", uploaded := [], outcome := CallOutcome.success "hi" (some "r1") }

/-- A sample submission whose call raises. -/
def subBad : Submission :=
  { text := "again", uploaded := [], outcome := CallOutcome.failure "boom" }

/-- Claim C7 witness: one successful turn then one failed turn give a
history of length three. -/
theorem C7_history_length_witness :
    (runSubs "vs" initialState ([subOk] ++ [subBad])).messages.length
      = 2 * ([subOk] : List Submission).length + 1 :=
  (C7_history_length "vs").2.2 [subOk] subBad (by decide) (by decide)

/-- Claim C8: a successful response carrying no id stores an absent token. -/
theorem C8_missing_id_clears_token (vsId : String) (s : SessionState)
    (text : String) (uploaded : List UploadedFile) (otext : String) :
    (processSubmit vsId s text uploaded
        (CallOutcome.success otext none)).1.previous_response_id = none :=
  rfl

/-- Claim C9, counterexample: with the API credential absent from both the
environment and the secrets store, start-up does not complete with a
warning — the secrets lookup raises and aborts the script run. -/
theorem C9_counterexample :
    startup none none (some "vs-1") none = Except.error "KeyError" :=
  rfl

/-- Claim C9, amended: when both configuration lookups return (in
particular when a value is present but empty), start-up completes without
halting and shows one banner per empty value; a value absent from both the
environment and the secrets store makes start-up fail with a lookup error. -/
theorem C9_config_resolution (envKey secKey envVS secVS : Option String)
    (k v : String) (hk : getCred envKey secKey = Except.ok k)
    (hv : getCred envVS secVS = Except.ok v) :
    startup envKey secKey envVS secVS
      = Except.ok (StartupResult.mk k v
          ((if k == "" then [keyWarning] else [])
            ++ (if v == "" then [vsWarning] else [])) false)
    ∧ startup none none envVS secVS = Except.error "KeyError" := by
  constructor
  · unfold startup
    rw [hk, hv]
  · rfl

/-- Claim C9 witness: an empty credential taken from secrets plus a set
vector store id start up un-halted with exactly the one key banner. -/
theorem C9_config_resolution_witness :
    startup none (some "") (some "vs-1") none
      = Except.ok (StartupResult.mk "" "vs-1"
          ((if ("" : String) == "" then [keyWarning] else [])
            ++ (if ("vs-1" : String) == "" then [vsWarning] else [])) false)
    ∧ startup none none (some "vs-1") none = Except.error "KeyError" :=
  C9_config_resolution none (some "") (some "vs-1") none "" "vs-1" rfl rfl

/-- Claim C10: the stored user turn keeps the submitted text verbatim while
the first content part carries the stripped text, and on a concrete
whitespace-padded input the two differ. -/
theorem C10_raw_stored_trimmed_sent (vsId : String) (s : SessionState)
    (text : String) (uploaded : List UploadedFile) (outcome : CallOutcome)
    (h : pyStrip text ≠ "") :
    (processSubmit vsId s text uploaded outcome).1.messages
      = s.messages ++ Message.user text ((uploaded.map mkImage).map Image.data_url)
          :: (match outcome with
              | CallOutcome.success ot _ => [Message.assistant ot]
              | CallOutcome.failure _ => [])
    ∧ (inputContent text (uploaded.map mkImage)).head?
        = some (InputPart.text (pyStrip text))
    ∧ pyStrip "  career advice  " = "career advice"
    ∧ ("  career advice  " : String) ≠ "career advice" := by
  refine ⟨processSubmit_messages vsId s text uploaded outcome, ?_, by decide, by decide⟩
  have hg : (pyTruthyStr text && pyTruthyStr (pyStrip text)) = true := by
    rw [guard_eq]
    simp [pyTruthyStr, h]
  simp [inputContent, hg]

/-- Claim C10 witness: the submission `"  hi  "` is stored verbatim but the
part sent carries `"hi"`. -/
theorem C10_raw_stored_trimmed_sent_witness :
    (processSubmit "vs" initialState "  hi  " [] (CallOutcome.failure "e")).1.messages
      = [Message.user "  hi  " []]
    ∧ (inputContent "  hi  " []).head? = some (InputPart.text "hi")
    ∧ pyStrip "  career advice  " = "career advice"
    ∧ ("  career advice  " : String) ≠ "career advice" := by
  have h := C10_raw_stored_trimmed_sent "vs" initialState "  hi  " []
    (CallOutcome.failure "e") (by decide)
  have h2 := h.2.1
  simp only [List.map_nil] at h2
  refine ⟨?_, ?_, h.2.2.1, h.2.2.2⟩
  · rw [h.1]; rfl
  · rw [h2]; decide

end CareerAdvisor
